import Mathlib

/-!
Verification development for the XNBNode converter (src/main.js).

The development shallowly embeds the parts of `src/main.js` that the claims
concern: the tilemap header transcoder (`onPresave`, lines 111-189), the
recursive image extraction (`extractImages`), the reinjection pass
(`objectWalk` / `onPostload`), and the batch error wrapper
(`readErrorWrapper` / `applyOrRecurse`).

Bytes are modelled as `Nat` values below 256 in a `List Nat`; JavaScript
signed 32-bit reads are modelled as `Int` with the explicit two-complement
adjustment.  The helper modules `reader.js`, `writer.js`, `util.js` and
`typeyaml.js` are not part of the given sources; the few operations main.js
uses from them are modelled from the specification and marked as such.
-/

/-- Error kinds that can surface from a conversion job.  `readError` is
`util.ReadError` (modelled from the spec: util.js is not under src/; the
Byte Cursor raises it when asked for more bytes than remain).
`pathResolutionError` is the failure of a recorded path to resolve during
reinjection (spec section 7; in main.js it surfaces as a strict-mode
TypeError when `objectWalk` yields `undefined` and the caller assigns a
property on it).  `other` stands for every remaining JavaScript exception
kind. -/
inductive JsErr where
  | readError
  | pathResolutionError
  | other (msg : String)
deriving DecidableEq, Repr

/-- Modelled from the spec: `reader.BufferConsumer.consume` (reader.js is not
under src/).  "returns the next n bytes and advances the offset by n.  Fails
with `ReadError` (truncated-input condition) if fewer than n bytes remain."
The remaining buffer stands for the backing bytes from the current offset. -/
def consume : Nat → List Nat → Except JsErr (List Nat × List Nat)
  | 0, buf => .ok ([], buf)
  | _ + 1, [] => .error .readError
  | n + 1, b :: buf => do
      let (xs, rest) ← consume n buf
      .ok (b :: xs, rest)

/-- Little-endian signed 32-bit read of a just-consumed 4-byte slice
(`Buffer.readInt32LE`). -/
def readInt32LE (bs : List Nat) : Int :=
  let u := bs.headD 0 % 256 + 256 * ((bs.drop 1).headD 0 % 256)
    + 65536 * ((bs.drop 2).headD 0 % 256)
    + 16777216 * ((bs.drop 3).headD 0 % 256)
  if u < 2147483648 then (u : Int) else (u : Int) - 4294967296

/-- Modelled from the spec: `writer.BufferWriter.writeInt32LE` (writer.js is
not under src/): "appends the 4-byte little-endian encoding of a signed
32-bit integer". -/
def int32LEbytes (n : Int) : List Nat :=
  let u := (n % 4294967296).toNat
  [u % 256, u / 256 % 256, u / 65536 % 256, u / 16777216 % 256]

/-- Decoding of a consumed byte slice when main.js coerces it to a string
(`imgSource + ".png"` calls `Buffer.toString` with the default utf8
encoding).  For the ASCII byte range relevant here, utf8 decoding maps each
byte to the character with that code. -/
def bytesToStr (bs : List Nat) : String :=
  String.mk (bs.map Char.ofNat)

/-- Modelled from the spec: `writer.BufferWriter.writeAscii` (writer.js is
not under src/): "appends the single-byte-per-character encoding of a text
value, no terminator, no length prefix". -/
def asciiBytes (s : String) : List Nat :=
  s.data.map (fun c => c.toNat % 256)

/-- main.js lines 122-126 (`skipString` inside `onPresave`): read a 4-byte
little-endian length, write it unchanged, then copy that many raw bytes
unchanged.  Returns the remaining input and the grown output. -/
def skipString (buf out : List Nat) : Except JsErr (List Nat × List Nat) := do
  let (lenB, buf1) ← consume 4 buf
  let len := readInt32LE lenB
  let (s, buf2) ← consume len.toNat buf1
  .ok (buf2, out ++ int32LEbytes len ++ s)

/-- The switch on `propertyType[0]` at main.js lines 138-151.  The source
switch has cases 0 (bool, 1 byte), 1 (int32, 4 bytes), 2 (float, 4 bytes)
and 3 (string) and no default clause: any other tag value falls through the
switch, consuming no value bytes. -/
def propValue (t : Nat) (buf out : List Nat) : Except JsErr (List Nat × List Nat) :=
  if t = 0 then do
    let (b, buf1) ← consume 1 buf
    .ok (buf1, out ++ b)
  else if t = 1 then do
    let (b, buf1) ← consume 4 buf
    .ok (buf1, out ++ b)
  else if t = 2 then do
    let (b, buf1) ← consume 4 buf
    .ok (buf1, out ++ b)
  else if t = 3 then
    skipString buf out
  else
    .ok (buf, out)

/-- The `while (numberProperties-- > 0)` loop body of `skipProperties`
(main.js lines 132-152): copy the key string, copy the 1-byte tag, then
branch on the tag value. -/
def skipPropsLoop : Nat → List Nat → List Nat → Except JsErr (List Nat × List Nat)
  | 0, buf, out => .ok (buf, out)
  | n + 1, buf, out => do
      let (buf1, out1) ← skipString buf out
      let (tagB, buf2) ← consume 1 buf1
      let (buf3, out3) ← propValue (tagB.headD 0) buf2 (out1 ++ tagB)
      skipPropsLoop n buf3 out3

/-- main.js lines 128-153 (`skipProperties`): read a 4-byte count, write it
unchanged, then run the per-property loop that many times.  A negative
signed count runs the loop zero times. -/
def skipProperties (buf out : List Nat) : Except JsErr (List Nat × List Nat) := do
  let (cntB, buf1) ← consume 4 buf
  let cnt := readInt32LE cntB
  skipPropsLoop cnt.toNat buf1 (out ++ int32LEbytes cnt)

/-- The per-tileset loop of `onPresave` (main.js lines 166-180): copy the id
and description strings, rewrite the image-source string with the literal
`.png` suffix appended (writing the new length and new bytes), copy the
32-byte size/margin/spacing block verbatim, then copy the property block.
The rewritten image source strings are accumulated in order. -/
def tileSheetLoop :
    Nat → List Nat → List Nat → List String → Except JsErr (List Nat × List Nat × List String)
  | 0, buf, out, acc => .ok (buf, out, acc)
  | n + 1, buf, out, acc => do
      let (buf1, out1) ← skipString buf out
      let (buf2, out2) ← skipString buf1 out1
      let (lenB, buf3) ← consume 4 buf2
      let strBytes := readInt32LE lenB
      let (srcB, buf4) ← consume strBytes.toNat buf3
      let imgSource := bytesToStr srcB ++ ".png"
      let out3 := out2 ++ int32LEbytes (imgSource.length : Int) ++ asciiBytes imgSource
      let (szB, buf5) ← consume 32 buf4
      let (buf6, out5) ← skipProperties buf5 (out3 ++ szB)
      tileSheetLoop n buf6 out5 (acc ++ [imgSource])

/-- The tilemap header transcoder: the body of `onPresave` for a detected
map segment (main.js lines 117-182).  Copies the 6-byte magic, the map id
and description strings and the map property block; then reads the tileset
count and runs the tileset loop; finally appends every remaining input byte
verbatim (`out.concat(buffer.buffer)`).  Produces the rewritten byte
sequence and the ordered list of rewritten image source names. -/
def transcodeMap (m : List Nat) : Except JsErr (List Nat × List String) := do
  let (header, buf1) ← consume 6 m
  let (buf2, out2) ← skipString buf1 header
  let (buf3, out3) ← skipString buf2 out2
  let (buf4, out4) ← skipProperties buf3 out3
  let (cntB, buf5) ← consume 4 buf4
  let n := readInt32LE cntB
  let (buf6, out6, sheets) ← tileSheetLoop n.toNat buf5 (out4 ++ int32LEbytes n) []
  .ok (out6 ++ buf6, sheets)

/-- The tagged value tree produced by the container codec: JavaScript
primitives (boolean, number, string), raw byte buffers, arrays, and objects
as insertion-ordered field lists (JavaScript object keys are unique). -/
inductive Value where
  | vbool (b : Bool)
  | vint (n : Int)
  | vstr (s : String)
  | vbytes (bs : List Nat)
  | varr (elems : List Value)
  | vmap (fields : List (String × Value))

/-- First-match association lookup, the model of a JavaScript property read
on a plain object (keys are unique, so first match is the only match). -/
def lookupField : List (String × Value) → String → Option Value
  | [], _ => none
  | (k, v) :: rest, key => if k = key then some v else lookupField rest key

/-- JavaScript property read `v[key]` as main.js performs it: defined on
objects; on every other runtime value the properties read here are absent,
so the read yields undefined (`none`). -/
def getFieldV : Value → String → Option Value
  | .vmap fs, key => lookupField fs key
  | _, _ => none

/-- JavaScript property write on a plain object: an existing key keeps its
slot, a new key is appended at the end (insertion order). -/
def setField : List (String × Value) → String → Value → List (String × Value)
  | [], key, w => [(key, w)]
  | (k, v) :: rest, key, w =>
      if k = key then (k, w) :: rest else (k, v) :: setField rest key w

/-- Property write lifted to a value; writing on a non-object is never
reached by the claims (in strict mode it would raise). -/
def setKeyOf : Value → String → Value → Value
  | .vmap fs, key, w => .vmap (setField fs key w)
  | v, _, _ => v

/-- JavaScript `delete obj[key]`: removes the property (keys are unique, so
removing the first match removes the property). -/
def deleteField : List (String × Value) → String → List (String × Value)
  | [], _ => []
  | (k, v) :: rest, key => if k = key then rest else (k, v) :: deleteField rest key

/-- Modelled from the spec: `typeyaml.isTypeObject` (typeyaml.js is not
under src/).  "a node is recognized as tagged iff it is a field mapping
with exactly the two recognized keys (tag-key, payload-key)"; main.js reads
the tag at key `type` and the payload at key `data`. -/
def isTypeObject : Value → Bool
  | .vmap fs =>
      (fs.map Prod.fst).length = 2 && (fs.map Prod.fst).contains "type"
        && (fs.map Prod.fst).contains "data"
  | _ => false

/-- The guard of the extraction branch at main.js line 235:
`typeyaml.isTypeObject(object) && object.type == 'Texture2D'`.  The loose
equality with the string literal holds exactly when the tag value is that
string (a non-string tag produced by the converter never compares equal). -/
def isTex (v : Value) : Bool :=
  isTypeObject v &&
    match getFieldV v "type" with
    | some (.vstr s) => s = "Texture2D"
    | _ => false

/-- The three deletions at main.js lines 243-245: `delete object.data.data`,
`delete object.data.width`, `delete object.data.height` applied to the
payload of a Texture2D node.  Deleting properties of a non-object payload
is a no-op. -/
def deleteTexKeys : Value → Value
  | .vmap gs => .vmap (deleteField (deleteField (deleteField gs "data") "width") "height")
  | v => v

/-- An entry of the `images` list built by `extractImages` (main.js lines
236-241): the captured pixel buffer, width and height (absent payload
fields read as undefined) and the recorded path. -/
structure Image where
  data : Option Value
  width : Option Value
  height : Option Value
  path : String

mutual

/-- main.js lines 229-261, `extractImages(object, path)`: primitives yield
nothing; a `Texture2D` tagged node is captured and its payload fields
deleted without recursing; arrays recurse with a 0-based index appended to
the path (a separating dot only when the path is non-empty); other tagged
nodes recurse transparently into their payload; plain objects recurse with
the field name appended under the same dot rule.  Byte buffers are objects
in JavaScript, but the for-in walk over their indices finds only numbers,
so they yield nothing and stay unchanged.  The tree mutation is returned as
the rebuilt value. -/
def extractV : Value → String → Value × List Image
  | .vbool b, _ => (.vbool b, [])
  | .vint n, _ => (.vint n, [])
  | .vstr s, _ => (.vstr s, [])
  | .vbytes bs, _ => (.vbytes bs, [])
  | .varr xs, p =>
      let p1 := if p = "" then p else p ++ "."
      let r := extractArr xs p1 0
      (.varr r.1, r.2)
  | .vmap fs, p =>
      if isTex (.vmap fs) then
        match lookupField fs "data" with
        | some payload =>
            (.vmap (setField fs "data" (deleteTexKeys payload)),
             [{ data := getFieldV payload "data"
                width := getFieldV payload "width"
                height := getFieldV payload "height"
                path := p }])
        | none => (.vmap fs, [])
      else if isTypeObject (.vmap fs) then
        let r := extractData fs p
        (.vmap r.1, r.2)
      else
        let p1 := if p = "" then p else p ++ "."
        let r := extractFields fs p1
        (.vmap r.1, r.2)

/-- The array branch of `extractImages` (main.js lines 246-250). -/
def extractArr : List Value → String → Nat → List Value × List Image
  | [], _, _ => ([], [])
  | x :: xs, p, i =>
      let r1 := extractV x (p ++ toString i)
      let r2 := extractArr xs p (i + 1)
      (r1.1 :: r2.1, r1.2 ++ r2.2)

/-- The tagged-composite branch of `extractImages` (main.js line 252):
recurse into `object['data']` without extending the path; the recursion
mutates that property in place. -/
def extractData : List (String × Value) → String → List (String × Value) × List Image
  | [], _ => ([], [])
  | (k, v) :: rest, p =>
      if k = "data" then
        let r := extractV v p
        ((k, r.1) :: rest, r.2)
      else
        let r := extractData rest p
        ((k, v) :: r.1, r.2)

/-- The plain-object branch of `extractImages` (main.js lines 253-257):
for-in over the fields in insertion order (the claims use no integer-like
keys, which for-in would reorder first). -/
def extractFields : List (String × Value) → String → List (String × Value) × List Image
  | [], _ => ([], [])
  | (k, v) :: rest, p =>
      let r1 := extractV v (p ++ k)
      let r2 := extractFields rest p
      ((k, r1.1) :: r2.1, r1.2 ++ r2.2)

end

/-- main.js lines 220-227, `extractMap(object)`: read `object.data.data`; if
its first 6 bytes decode to the ASCII magic `tBIN10`, delete that property
and hand the blob back, otherwise return null.  Utf8 decoding of a 6-byte
slice equals the ASCII string `tBIN10` exactly when the bytes are its ASCII
codes, so the magic test is a byte comparison here.  A missing `data.data`
chain raises a TypeError in the source (reading a property of undefined);
a non-buffer blob is outside the domain of the transcoder and the claims
and is mapped to the same error kind. -/
def extractMapE (object : Value) : Except JsErr (Option (Value × List Nat)) :=
  match getFieldV object "data" with
  | some inner =>
      match getFieldV inner "data" with
      | some (.vbytes b) =>
          if b.take 6 = [116, 66, 73, 78, 49, 48] then
            .ok (some (setKeyOf object "data"
              (match inner with
               | .vmap gs => .vmap (deleteField gs "data")
               | v => v), b))
          else
            .ok none
      | _ => .error (.other "TypeError")
  | none => .error (.other "TypeError")

/-- main.js line 188: `data.content.data.tileSheets = tileSheets`, writing
the ordered image-name list back into the tree at the map-specific
location (a property of the payload of `content`). -/
def setTileSheets (object : Value) (sheets : List String) : Value :=
  match getFieldV object "data" with
  | some inner => setKeyOf object "data" (setKeyOf inner "tileSheets" (.varr (sheets.map .vstr)))
  | none => object

/-- The tilemap part of `onPresave` (main.js lines 112-189): detect and
remove a `tBIN10` segment, transcode it, write the rewritten bytes to the
`.tbin` sidecar (returned here as the optional byte list) and write the
tile sheet names back into the tree. -/
def presaveMapStep (content : Value) : Except JsErr (Value × Option (List Nat)) :=
  match extractMapE content with
  | .error e => .error e
  | .ok none => .ok (content, none)
  | .ok (some (content1, blob)) =>
      match transcodeMap blob with
      | .error e => .error e
      | .ok (outBytes, sheets) => .ok (setTileSheets content1 sheets, some outBytes)

/-- A PNG sidecar write performed by the loop at main.js lines 193-211: the
node path (which determines the sidecar filename) and the width, height and
pixel buffer handed to the image codec. -/
structure PngWrite where
  path : String
  width : Option Value
  height : Option Value
  data : Option Value

/-- The root record handed between the converter and the passes:
`data.content` and the optional `data.extractedImages` list. -/
structure Document where
  content : Value
  extractedImages : Option (List Image)

/-- main.js lines 111-218, `onPresave`: run the tilemap step, then extract
images; for each image write its PNG sidecar and delete the transient
`data`, `width` and `height` properties from the list entry; attach the
list as `extractedImages` only when it is non-empty.  Returns the mutated
document, the optional `.tbin` sidecar bytes and the PNG writes. -/
def onPresave (doc : Document) : Except JsErr (Document × Option (List Nat) × List PngWrite) :=
  match presaveMapStep doc.content with
  | .error e => .error e
  | .ok (content1, tbin) =>
      let r := extractV content1 ""
      let writes := r.2.map fun im => { path := im.path, width := im.width, height := im.height, data := im.data : PngWrite }
      let cleared := r.2.map fun im => { im with data := none, width := none, height := none }
      .ok ({ content := r.1
             extractedImages := if r.2.isEmpty then doc.extractedImages else some cleared },
           tbin, writes)

/-- JavaScript `String.prototype.split` with a one-character separator,
written structurally over the character list. -/
def splitOnChar (c : Char) : List Char → List (List Char)
  | [] => [[]]
  | x :: rest =>
      let r := splitOnChar c rest
      if x = c then [] :: r
      else
        match r with
        | [] => [[x]]
        | y :: ys => (x :: y) :: ys

/-- Splitting of a recorded path into segments as `objectWalk` consumes
them: the source tests `if(!path)` before splitting, so the empty path has
no segments; otherwise `path.split('.')`. -/
def pathParts (p : String) : List String :=
  if p = "" then [] else (splitOnChar '.' p.data).map (fun cs => String.mk cs)

mutual

/-- main.js lines 263-268, `objectWalk(object, path)`: tagged composites
are stepped through transparently into their payload; an exhausted path
returns the current node; otherwise the leading segment indexes the node
(array index or field name) and the walk recurses.  A segment that reads
undefined, or a primitive that cannot be indexed further, makes the walk
fail (`none`): in the source this surfaces as a TypeError either inside the
walk or at the property assignment on the returned undefined. -/
def objectWalk : Value → List String → Option Value
  | .vmap fs, parts =>
      if isTypeObject (.vmap fs) then walkData fs parts
      else
        match parts with
        | [] => some (.vmap fs)
        | s :: rest => walkField fs s rest
  | .varr xs, parts =>
      match parts with
      | [] => some (.varr xs)
      | s :: rest =>
          match s.toNat? with
          | some i => if toString i = s then walkIdx xs i rest else none
          | none => none
  | v, parts =>
      match parts with
      | [] => some v
      | _ :: _ => none

/-- Transparent step of `objectWalk` into the payload of a tagged
composite (`objectWalk(object['data'], path)`). -/
def walkData : List (String × Value) → List String → Option Value
  | [], _ => none
  | (k, v) :: rest, parts =>
      if k = "data" then objectWalk v parts else walkData rest parts

/-- Field-name step of `objectWalk` (`object[parts[0]]` on an object). -/
def walkField : List (String × Value) → String → List String → Option Value
  | [], _, _ => none
  | (k, v) :: rest, s, parts =>
      if k = s then objectWalk v parts else walkField rest s parts

/-- Array-index step of `objectWalk` (`object[parts[0]]` on an array with a
canonical decimal index). -/
def walkIdx : List Value → Nat → List String → Option Value
  | [], _, _ => none
  | x :: _, 0, parts => objectWalk x parts
  | _ :: xs, i + 1, parts => walkIdx xs i parts

end

/-- The pixel data read back from a PNG sidecar (`PNG.sync.read`). -/
structure Png where
  width : Int
  height : Int
  data : List Nat

mutual

/-- Functional counterpart of the in-place mutation performed by
`onPostload` (main.js lines 281-284): the source walks with `objectWalk`
and then assigns `container.data`, `container.width`, `container.height` on
the node the walk reached; because the container is aliased into the tree,
this rebuilds the tree along the same branches `objectWalk` takes.  At the
end of the path the three properties are written in source order on an
object node; any failure along the way is the path-resolution failure
(a strict-mode TypeError in the source).  Assigning on an array node would
attach expando properties invisible to the tree model; no recorded path
reaches that case. -/
def setAtPath : Value → List String → Png → Except JsErr Value
  | .vmap fs, parts, png =>
      if isTypeObject (.vmap fs) then
        match setDataAt fs parts png with
        | .error e => .error e
        | .ok fs1 => .ok (.vmap fs1)
      else
        match parts with
        | [] =>
            .ok (.vmap (setField (setField (setField fs "data" (.vbytes png.data))
              "width" (.vint png.width)) "height" (.vint png.height)))
        | s :: rest =>
            match setFieldAt fs s rest png with
            | .error e => .error e
            | .ok fs1 => .ok (.vmap fs1)
  | .varr xs, parts, png =>
      match parts with
      | [] => .error .pathResolutionError
      | s :: rest =>
          match s.toNat? with
          | some i =>
              if toString i = s then
                match setIdxAt xs i rest png with
                | .error e => .error e
                | .ok xs1 => .ok (.varr xs1)
              else .error .pathResolutionError
          | none => .error .pathResolutionError
  | _, _, _ => .error .pathResolutionError

/-- Rebuilding step through the payload of a tagged composite, mirroring
`walkData`. -/
def setDataAt : List (String × Value) → List String → Png → Except JsErr (List (String × Value))
  | [], _, _ => .error .pathResolutionError
  | (k, v) :: rest, parts, png =>
      if k = "data" then
        match setAtPath v parts png with
        | .error e => .error e
        | .ok v1 => .ok ((k, v1) :: rest)
      else
        match setDataAt rest parts png with
        | .error e => .error e
        | .ok rest1 => .ok ((k, v) :: rest1)

/-- Rebuilding step through a named field, mirroring `walkField`. -/
def setFieldAt : List (String × Value) → String → List String → Png → Except JsErr (List (String × Value))
  | [], _, _, _ => .error .pathResolutionError
  | (k, v) :: rest, s, parts, png =>
      if k = s then
        match setAtPath v parts png with
        | .error e => .error e
        | .ok v1 => .ok ((k, v1) :: rest)
      else
        match setFieldAt rest s parts png with
        | .error e => .error e
        | .ok rest1 => .ok ((k, v) :: rest1)

/-- Rebuilding step through an array index, mirroring `walkIdx`. -/
def setIdxAt : List Value → Nat → List String → Png → Except JsErr (List Value)
  | [], _, _, _ => .error .pathResolutionError
  | x :: xs, 0, parts, png =>
      match setAtPath x parts png with
      | .error e => .error e
      | .ok x1 => .ok (x1 :: xs)
  | x :: xs, i + 1, parts, png =>
      match setIdxAt xs i parts png with
      | .error e => .error e
      | .ok xs1 => .ok (x :: xs1)

end

/-- The reinjection loop of `onPostload` (main.js lines 274-285): for each
placeholder in order, read its PNG sidecar (the read is abstracted as a
total oracle keyed by the recorded path, since the filename is a fixed
function of the input filename and the path), resolve the path with
`objectWalk`, and write `data`, `width`, `height` at the resolved node.  A
path that does not resolve to an existing node fails the file with the
path-resolution error kind. -/
def reinjectAll (readPng : String → Png) : Value → List Image → Except JsErr Value
  | content, [] => .ok content
  | content, img :: rest =>
      let png := readPng img.path
      match objectWalk content (pathParts img.path) with
      | none => .error .pathResolutionError
      | some _ =>
          match setAtPath content (pathParts img.path) png with
          | .error e => .error e
          | .ok content1 => reinjectAll readPng content1 rest

/-- main.js lines 270-288, `onPostload(inputFile, data)`: if
`extractedImages` is absent the document is returned unchanged; otherwise
every placeholder is reinjected in list order. -/
def onPostload (readPng : String → Png) (doc : Document) : Except JsErr Document :=
  match doc.extractedImages with
  | none => .ok doc
  | some imgs =>
      match reinjectAll readPng doc.content imgs with
      | .error e => .error e
      | .ok content1 => .ok { doc with content := content1 }

/-- main.js lines 57-69, `readErrorWrapper(fn)`: run the wrapped job; a
`util.ReadError` is caught and swallowed (the wrapper returns undefined,
here `none`); every other exception is rethrown. -/
def readErrorWrapper (fn : String → Except JsErr Unit) (file : String) : Except JsErr (Option Unit) :=
  match fn file with
  | .ok u => .ok (some u)
  | .error .readError => .ok none
  | .error e => .error e

/-- The directory branch of `applyOrRecurse` (main.js lines 87-103): the
walker invokes the wrapped per-file job on each matching file in sequence;
an exception escaping the wrapper aborts the run. -/
def applyBatch (fn : String → Except JsErr Unit) : List String → Except JsErr Unit
  | [] => .ok ()
  | f :: rest =>
      match readErrorWrapper fn f with
      | .error e => .error e
      | .ok _ => applyBatch fn rest

/-! Concrete fixtures used by the claims. -/

/-- ASCII bytes of the fixed magic `tBIN10`. -/
def magicL : List Nat := [116, 66, 73, 78, 49, 48]

/-- ASCII bytes of the image source `tiles`. -/
def tiles5 : List Nat := [116, 105, 108, 101, 115]

/-- ASCII bytes of the rewritten image source `tiles.png`. -/
def tilesPng9 : List Nat := [116, 105, 108, 101, 115, 46, 112, 110, 103]

/-- The minimal synthetic tilemap segment of the claim: magic, empty id
string, empty description string, zero map properties, one tileset with id
`t`, empty description, image source `tiles`, 32 size/margin/spacing bytes,
zero tileset properties, then the trailing bytes. -/
def c2in (sz tr : List Nat) : List Nat :=
  magicL ++ ([0,0,0,0] ++ ([0,0,0,0] ++ ([0,0,0,0] ++ ([1,0,0,0] ++ ([1,0,0,0] ++
    ([116] ++ ([0,0,0,0] ++ ([5,0,0,0] ++ (tiles5 ++ (sz ++ ([0,0,0,0] ++ tr)))))))))))

/-- The transcoded output for `c2in`: identical except that the
image-source field is rewritten to length 9 and the bytes of `tiles.png`;
the trailing bytes stay last. -/
def c2out (sz tr : List Nat) : List Nat :=
  magicL ++ [0,0,0,0] ++ [0,0,0,0] ++ [0,0,0,0] ++ [1,0,0,0] ++ [1,0,0,0] ++
    [116] ++ [0,0,0,0] ++ [9,0,0,0] ++ tilesPng9 ++ sz ++ [0,0,0,0] ++ tr

/-- A tilemap segment whose single map-level property carries the unknown
tag byte 5 directly before the (empty) tileset list. -/
def c1seg : List Nat :=
  magicL ++ ([0,0,0,0] ++ ([0,0,0,0] ++ ([1,0,0,0] ++ ([0,0,0,0] ++ ([5] ++ [0,0,0,0])))))

/-- A minimal well-formed tilemap segment with no properties and no
tilesets. -/
def bmin : List Nat :=
  magicL ++ ([0,0,0,0] ++ ([0,0,0,0] ++ ([0,0,0,0] ++ [0,0,0,0])))

/-- The 8-byte RGBA payload of the claims: one red and one green pixel. -/
def pix : List Nat := [255, 0, 0, 255, 0, 255, 0, 255]

/-- A `Texture2D` tagged node with width 2, height 1 and the 8-byte RGBA
payload. -/
def texNode : Value :=
  .vmap [("type", .vstr "Texture2D"),
         ("data", .vmap [("data", .vbytes pix), ("width", .vint 2), ("height", .vint 1)])]

/-- `texNode` after extraction: the payload lost its three fields. -/
def texNodeX : Value :=
  .vmap [("type", .vstr "Texture2D"), ("data", .vmap [])]

/-- A tree containing `texNode` under the field `tex`. -/
def content3 : Value := .vmap [("tex", texNode)]

/-- `content3` after extraction. -/
def content3X : Value := .vmap [("tex", texNodeX)]

/-- The placeholder captured from `texNode` at path `tex`. -/
def img3 : Image :=
  { data := some (.vbytes pix), width := some (.vint 2), height := some (.vint 1), path := "tex" }

/-- The placeholder after the sidecar write: only the path remains. -/
def img3c : Image := { data := none, width := none, height := none, path := "tex" }

/-- Sidecar oracle holding the same 8 bytes with width 2 and height 1. -/
def readPng3 : String → Png := fun _ => { width := 2, height := 1, data := pix }

/-- The tree of the path-transparency claim: a tagged wrapper whose payload
holds `items`, an array whose element 0 is the texture node. -/
def content4 : Value :=
  .vmap [("type", .vstr "T"), ("data", .vmap [("items", .varr [texNode])])]

/-- A document content for the sidecar-writer claim: a tagged wrapper whose
payload holds a non-magic byte blob under `data` and the texture under
`tex`. -/
def contentC6 : Value :=
  .vmap [("type", .vstr "T"),
         ("data", .vmap [("data", .vbytes [1, 2, 3]), ("tex", texNode)])]

/-- `contentC6` after extraction. -/
def contentC6X : Value :=
  .vmap [("type", .vstr "T"),
         ("data", .vmap [("data", .vbytes [1, 2, 3]), ("tex", texNodeX)])]

/-- The document holding `contentC6`, fresh from the converter. -/
def docC6 : Document := { content := contentC6, extractedImages := none }

/-- A per-file job used to instantiate the batch claim: one file raises the
read error, one raises a different error, the rest succeed. -/
def fnW : String → Except JsErr Unit := fun s =>
  if s = "bad.xnb" then .error .readError
  else if s = "boom.xnb" then .error (.other "TypeError")
  else .ok ()

/-- A tree without any node at path `missing`. -/
def c5tree : Value := .vmap [("a", .vint 1)]

/-- A placeholder whose recorded path resolves to nothing in `c5tree`. -/
def img5 : Image := { data := none, width := none, height := none, path := "missing" }

/-! Helper lemmas. -/

theorem exceptBind_ok {α β : Type} (a : α) (f : α → Except JsErr β) :
    (Except.ok a >>= f : Except JsErr β) = f a := rfl

theorem consume_exact (a b : List Nat) : consume a.length (a ++ b) = .ok (a, b) := by
  induction a with
  | nil => rfl
  | cons x xs ih => simp [consume, ih, exceptBind_ok]

theorem consume_len (n : Nat) (a b : List Nat) (h : a.length = n) :
    consume n (a ++ b) = .ok (a, b) := by
  subst h; exact consume_exact a b

theorem consume_magic (r : List Nat) : consume 6 (magicL ++ r) = .ok (magicL, r) :=
  consume_exact magicL r

theorem consume_tiles (r : List Nat) : consume 5 (tiles5 ++ r) = .ok (tiles5, r) :=
  consume_exact tiles5 r

theorem consume4_cons (a b c d : Nat) (r : List Nat) :
    consume 4 ([a, b, c, d] ++ r) = .ok ([a, b, c, d], r) :=
  consume_exact [a, b, c, d] r

theorem consume1_cons (a : Nat) (r : List Nat) : consume 1 ([a] ++ r) = .ok ([a], r) :=
  consume_exact [a] r

theorem readInt32LE_0 : readInt32LE [0, 0, 0, 0] = 0 := rfl
theorem readInt32LE_1 : readInt32LE [1, 0, 0, 0] = 1 := rfl
theorem readInt32LE_5 : readInt32LE [5, 0, 0, 0] = 5 := rfl
theorem int32LEbytes_0 : int32LEbytes 0 = [0, 0, 0, 0] := rfl
theorem int32LEbytes_1 : int32LEbytes 1 = [1, 0, 0, 0] := rfl
theorem toNat_int5 : (5 : Int).toNat = 5 := rfl
theorem bytesToStr_tiles : bytesToStr tiles5 ++ ".png" = "tiles.png" := rfl
theorem int32LEbytes_len9 : int32LEbytes (("tiles.png".length : Nat) : Int) = [9, 0, 0, 0] := rfl
theorem asciiBytes_tilesPng : asciiBytes "tiles.png" = tilesPng9 := rfl

/-- Copying a zero-length string field moves only its length word. -/
theorem skipString_nil (r out : List Nat) :
    skipString ([0, 0, 0, 0] ++ r) out = .ok (r, out ++ [0, 0, 0, 0]) := by
  rw [skipString, consume_len 4 [0, 0, 0, 0] r rfl, exceptBind_ok]
  simp only [readInt32LE_0, Int.toNat_zero, int32LEbytes_0, consume, exceptBind_ok]
  simp

/-- Copying a one-byte string field moves its length word and the byte. -/
theorem skipString_one (c : Nat) (r out : List Nat) :
    skipString ([1, 0, 0, 0] ++ ([c] ++ r)) out = .ok (r, out ++ ([1, 0, 0, 0] ++ [c])) := by
  rw [skipString, consume_len 4 [1, 0, 0, 0] ([c] ++ r) rfl, exceptBind_ok]
  simp only [readInt32LE_1, Int.toNat_one, int32LEbytes_1]
  rw [consume_len 1 [c] r rfl, exceptBind_ok]
  simp

/-- Copying an empty property block moves only its count word. -/
theorem skipProperties_zero (r out : List Nat) :
    skipProperties ([0, 0, 0, 0] ++ r) out = .ok (r, out ++ [0, 0, 0, 0]) := by
  rw [skipProperties, consume_len 4 [0, 0, 0, 0] r rfl, exceptBind_ok]
  simp only [readInt32LE_0, Int.toNat_zero, int32LEbytes_0, skipPropsLoop]

theorem lookup_setField_self (l : List (String × Value)) (k : String) (v : Value) :
    lookupField (setField l k v) k = some v := by
  induction l with
  | nil => simp [setField, lookupField]
  | cons h t ih =>
      by_cases hk : h.1 = k <;> simp [setField, lookupField, hk, ih]

theorem lookup_setField_ne (l : List (String × Value)) (k k2 : String) (v : Value)
    (h : k2 ≠ k) : lookupField (setField l k v) k2 = lookupField l k2 := by
  have hne : ¬ k = k2 := fun hh => h hh.symm
  induction l with
  | nil => simp [setField, lookupField, hne]
  | cons hd t ih =>
      by_cases hk : hd.1 = k
      · simp [setField, lookupField, hk, hne]
      · simp [setField, lookupField, hk, ih]

theorem lookup_deleteField_self (l : List (String × Value)) (k : String)
    (hnd : (l.map Prod.fst).Nodup) :
    lookupField (deleteField l k) k = none := by
  induction l with
  | nil => simp [deleteField, lookupField]
  | cons hd t ih =>
      simp only [List.map_cons, List.nodup_cons] at hnd
      by_cases hk : hd.1 = k
      · subst hk
        simp only [deleteField, if_pos rfl]
        clear ih
        induction t with
        | nil => simp [lookupField]
        | cons hd2 t2 ih2 =>
            simp only [List.mem_map] at hnd
            have h2 : ¬ hd2.1 = hd.1 := by
              intro hh
              exact hnd.1 ⟨hd2, List.mem_cons_self _ _, hh⟩
            simp only [lookupField, if_neg fun hh => h2 (by exact hh)]
            apply ih2
            refine ⟨fun hmem => hnd.1 ?_, hnd.2.of_cons⟩
            obtain ⟨x, hx, hx2⟩ := List.mem_map.mp hmem
            exact ⟨x, List.mem_cons_of_mem _ hx, hx2⟩
      · simp [deleteField, hk, lookupField, ih hnd.2]

/-! Claim theorems. -/

/-- C1, counterexample: the property-block transcoder raises no error on
the unknown property tag byte 5.  On a segment whose single map property
carries tag byte 5, the whole transcode succeeds and copies every byte
through unchanged, so no `UnknownPropertyTag` (or any other) error is
raised. -/
theorem C1_counterexample : transcodeMap c1seg = .ok (c1seg, []) := by rfl

/-- C1, amended: during tilemap header transcoding, a property tag byte
outside 0, 1, 2, 3 is silently skipped, not fatal: the tag byte is copied
to the output, zero value bytes are consumed for that property, and
transcoding continues with the bytes that follow. -/
theorem C1_unknown_tag_skipped (t : Nat) (h0 : t ≠ 0) (h1 : t ≠ 1) (h2 : t ≠ 2) (h3 : t ≠ 3)
    (buf out : List Nat) :
    skipProperties ([1, 0, 0, 0] ++ ([0, 0, 0, 0] ++ ([t] ++ buf))) out
      = .ok (buf, out ++ [1, 0, 0, 0] ++ [0, 0, 0, 0] ++ [t]) := by
  rw [skipProperties, consume_len 4 [1, 0, 0, 0] _ rfl, exceptBind_ok]
  simp only [readInt32LE_1, Int.toNat_one, int32LEbytes_1, skipPropsLoop, exceptBind_ok,
    skipString_nil, consume1_cons]
  simp only [List.headD, propValue, if_neg h0, if_neg h1, if_neg h2, if_neg h3, exceptBind_ok]

theorem C1_unknown_tag_skipped_witness :
    skipProperties ([1, 0, 0, 0] ++ ([0, 0, 0, 0] ++ ([5] ++ [7, 7]))) []
      = .ok ([7, 7], [] ++ [1, 0, 0, 0] ++ [0, 0, 0, 0] ++ [5]) :=
  C1_unknown_tag_skipped 5 (by decide) (by decide) (by decide) (by decide) [7, 7] []

/-- C2: on the minimal synthetic tilemap segment (magic `tBIN10`, empty id
and description, zero map properties, one tileset with id `t`, empty
description, image source `tiles`, any 32 size/margin/spacing bytes, zero
tileset properties, any 3 trailing bytes) the transcoder outputs the tile
sheet name list `tiles.png`, writes 9 as the rewritten image-source length
field, and emits the 3 trailing bytes unchanged at the end of the
output. -/
theorem C2_transcode_minimal (sz tr : List Nat) (hsz : sz.length = 32) (_htr : tr.length = 3) :
    transcodeMap (c2in sz tr) = .ok (c2out sz tr, ["tiles.png"]) := by
  rw [transcodeMap, c2in]
  simp only [consume_magic, exceptBind_ok, skipString_nil, skipString_one, skipProperties_zero,
    consume4_cons, readInt32LE_1, readInt32LE_5, Int.toNat_one, int32LEbytes_1, toNat_int5]
  simp only [tileSheetLoop, exceptBind_ok, skipString_nil, skipString_one, consume4_cons,
    readInt32LE_5, toNat_int5, consume_tiles, bytesToStr_tiles, int32LEbytes_len9,
    asciiBytes_tilesPng]
  rw [consume_len 32 sz ([0, 0, 0, 0] ++ tr) hsz, exceptBind_ok]
  simp only [skipProperties_zero, exceptBind_ok, tileSheetLoop]
  simp [c2out, List.append_assoc]

theorem C2_transcode_minimal_witness :
    transcodeMap (c2in (List.replicate 32 170) [250, 251, 252])
      = .ok (c2out (List.replicate 32 170) [250, 251, 252], ["tiles.png"]) :=
  C2_transcode_minimal (List.replicate 32 170) [250, 251, 252] (by simp) (by simp)

/-- C8: a document without the `extractedImages` field passes through the
reinjection pass unchanged: `onPostload` returns it as is, touching no node
of the tree. -/
theorem C8_postload_noop (readPng : String → Png) (c : Value) :
    onPostload readPng { content := c, extractedImages := none }
      = .ok { content := c, extractedImages := none } := rfl

/-- C9: a per-file job that raises the read error is abandoned by the
wrapper, so a batch run continues with the remaining files exactly as if
the failed file were not there; an error of any other kind escapes the
wrapper unchanged. -/
theorem C9_readError_abandons (fn : String → Except JsErr Unit) :
    (∀ f rest, fn f = .error .readError → applyBatch fn (f :: rest) = applyBatch fn rest)
  ∧ (∀ file e, fn file = .error e → e ≠ .readError → readErrorWrapper fn file = .error e) := by
  constructor
  · intro f rest h
    simp [applyBatch, readErrorWrapper, h]
  · intro file e h hne
    cases e with
    | readError => exact absurd rfl hne
    | pathResolutionError => simp [readErrorWrapper, h]
    | other msg => simp [readErrorWrapper, h]

theorem C9_readError_abandons_witness :
    applyBatch fnW ["bad.xnb", "good.xnb"] = applyBatch fnW ["good.xnb"]
  ∧ readErrorWrapper fnW "boom.xnb" = .error (.other "TypeError") :=
  ⟨(C9_readError_abandons fnW).1 "bad.xnb" ["good.xnb"] (by rfl),
   (C9_readError_abandons fnW).2 "boom.xnb" (.other "TypeError") (by rfl) (by decide)⟩

/-- C10: the extraction traversal never recurses into the payload of a
`Texture2D` tagged node: whatever the payload is — in particular when it
contains further `Texture2D` nodes — the node yields exactly one
placeholder (its own), and its payload is only stripped of the `data`,
`width` and `height` fields, never searched. -/
theorem C10_no_recursion_into_texture (d : Value) (p : String) :
    extractV (.vmap [("type", .vstr "Texture2D"), ("data", d)]) p
      = (.vmap [("type", .vstr "Texture2D"), ("data", deleteTexKeys d)],
         [{ data := getFieldV d "data", width := getFieldV d "width",
            height := getFieldV d "height", path := p }]) := by
  simp [extractV, isTex, isTypeObject, getFieldV, lookupField, setField]

theorem toString_nat0 : toString (0 : Nat) = "0" := rfl

/-- C3: extracting the tree that holds the `Texture2D` node with width 2,
height 1 and the 8-byte RGBA payload removes the `data`, `width` and
`height` fields from the payload and appends exactly one placeholder
carrying the path, width 2 and height 1; reinjecting from a sidecar that
holds the same 8 bytes restores the original node exactly. -/
theorem C3_extract_reinject_identity :
    extractV content3 "" = (content3X, [img3])
  ∧ onPostload readPng3 { content := content3X, extractedImages := some [img3c] }
      = .ok { content := content3, extractedImages := some [img3c] } := by
  constructor
  · simp [extractV, extractFields, content3, content3X, texNode, texNodeX, isTex, isTypeObject,
      lookupField, getFieldV, deleteTexKeys, deleteField, setField, pix, img3]
  · simp [onPostload, reinjectAll, objectWalk, walkData, walkField, pathParts, splitOnChar,
      content3, content3X, texNode, texNodeX, isTypeObject, setAtPath, setDataAt, setFieldAt,
      setField, pix, img3c, readPng3]

/-- C4: recorded paths are tag transparent: in the tree whose tagged
wrapper holds `items`, an array whose element 0 is the texture, the
recorded path is `items.0` — the wrapper and payload layers contribute no
segment, and segments are joined with a dot only after a non-empty
prefix. -/
theorem C4_path_tag_transparent :
    (extractV content4 "").2
      = [{ data := some (.vbytes pix), width := some (.vint 2),
           height := some (.vint 1), path := "items.0" }] := by
  simp [extractV, extractData, extractFields, extractArr, content4, texNode, isTex, isTypeObject,
    lookupField, getFieldV, deleteTexKeys, deleteField, setField, pix, toString_nat0]

/-- C5: when a placeholder's recorded path does not resolve to an existing
node of the loaded tree, the reinjection pass fails with the
path-resolution error kind — not with the read error or any other kind —
and the failure is fatal for the file. -/
theorem C5_unresolved_path_fatal (c : Value) (img : Image) (rest : List Image)
    (readPng : String → Png) (h : objectWalk c (pathParts img.path) = none) :
    onPostload readPng { content := c, extractedImages := some (img :: rest) }
      = .error .pathResolutionError := by
  simp [onPostload, reinjectAll, h]

theorem C5_unresolved_path_fatal_witness :
    onPostload readPng3 { content := c5tree, extractedImages := some [img5] }
      = .error .pathResolutionError :=
  C5_unresolved_path_fatal c5tree img5 [] readPng3
    (by simp [objectWalk, walkField, pathParts, splitOnChar, isTypeObject, c5tree, img5])

/-- C6, counterexample: after the sidecar writer runs, the surviving
`extractedImages` entry does not retain width and height.  On `docC6` the
PNG write receives path, width 2, height 1 and the pixel buffer, but the
entry attached to the document keeps only its path: its `data`, `width`
and `height` are all deleted, refuting the claim that width and height are
still carried. -/
theorem C6_counterexample :
    onPresave docC6
      = .ok ({ content := contentC6X, extractedImages := some [img3c] }, none,
             [{ path := "tex", width := some (.vint 2), height := some (.vint 1),
                data := some (.vbytes pix) }]) := by
  simp [onPresave, presaveMapStep, extractMapE, docC6, contentC6, contentC6X, getFieldV,
    lookupField, extractV, extractData, extractFields, isTex, isTypeObject, deleteTexKeys,
    deleteField, setField, texNode, texNodeX, pix, img3c]

/-- C6, amended: after the sidecar writer consumes an `ImagePlaceholder`,
the pixel buffer and the width and height fields are all discarded from the
entry; every entry of `extractedImages` attached to the document carries
only its path. -/
theorem C6_amended_sidecar_strips_all (doc d2 : Document) (tb : Option (List Nat))
    (ws : List PngWrite) (hdoc : doc.extractedImages = none)
    (h : onPresave doc = .ok (d2, tb, ws)) :
    ∀ imgs, d2.extractedImages = some imgs →
      ∀ im ∈ imgs, im.data = none ∧ im.width = none ∧ im.height = none := by
  intro imgs himgs im hmem
  unfold onPresave at h
  cases hm : presaveMapStep doc.content with
  | error e => rw [hm] at h; exact absurd h (by simp)
  | ok pr =>
      obtain ⟨content1, tbin⟩ := pr
      rw [hm] at h
      simp only [Except.ok.injEq, Prod.mk.injEq] at h
      obtain ⟨hd2, -, -⟩ := h
      rw [← hd2] at himgs
      by_cases hemp : (extractV content1 "").2.isEmpty
      · rw [if_pos hemp] at himgs
        rw [hdoc] at himgs
        exact absurd himgs (by simp)
      · rw [if_neg hemp] at himgs
        injection himgs with himgs
        rw [← himgs] at hmem
        obtain ⟨im0, -, him⟩ := List.mem_map.mp hmem
        rw [← him]
        exact ⟨rfl, rfl, rfl⟩

theorem C6_amended_sidecar_strips_all_witness :
    img3c.data = none ∧ img3c.width = none ∧ img3c.height = none := by
  have h : onPresave docC6
      = .ok ({ content := contentC6X, extractedImages := some [img3c] }, none,
             [{ path := "tex", width := some (.vint 2), height := some (.vint 1),
                data := some (.vbytes pix) }]) := by
    simp [onPresave, presaveMapStep, extractMapE, docC6, contentC6, contentC6X, getFieldV,
      lookupField, extractV, extractData, extractFields, isTex, isTypeObject, deleteTexKeys,
      deleteField, setField, texNode, texNodeX, pix, img3c]
  exact C6_amended_sidecar_strips_all docC6 _ none _ rfl h [img3c] rfl img3c (by simp)

theorem getFieldV_vmap (l : List (String × Value)) (k : String) :
    getFieldV (.vmap l) k = lookupField l k := rfl

/-- C7: the tilemap branch fires exactly on the magic.  For a content tree
whose payload carries a byte blob under `data`: when the first 6 bytes of
the blob are the ASCII magic `tBIN10` and the segment transcodes, the map
step deletes the blob field from the tree and writes the ordered tile
sheet name list at the map-specific location, emitting the transcoded
bytes; when the first 6 bytes differ from the magic the tree is returned
unchanged and no tilemap sidecar is produced. -/
theorem C7_tilemap_detect_iff (fs gs : List (String × Value)) (b : List Nat)
    (hfs : lookupField fs "data" = some (.vmap gs))
    (hgs : lookupField gs "data" = some (.vbytes b))
    (hnd : (gs.map Prod.fst).Nodup) :
    (∀ outB sheets, b.take 6 = magicL → transcodeMap b = .ok (outB, sheets) →
       ∃ c2, presaveMapStep (.vmap fs) = .ok (c2, some outB)
         ∧ (getFieldV c2 "data").bind (fun inner => getFieldV inner "data") = none
         ∧ (getFieldV c2 "data").bind (fun inner => getFieldV inner "tileSheets")
             = some (.varr (sheets.map .vstr)))
  ∧ (b.take 6 ≠ magicL → presaveMapStep (.vmap fs) = .ok (.vmap fs, none)) := by
  constructor
  · intro outB sheets hmagic htr
    simp only [magicL] at hmagic
    refine ⟨.vmap (setField (setField fs "data" (.vmap (deleteField gs "data"))) "data"
      (.vmap (setField (deleteField gs "data") "tileSheets" (.varr (sheets.map .vstr))))),
      ?_, ?_, ?_⟩
    · simp only [presaveMapStep, extractMapE, getFieldV, hfs, hgs, if_pos hmagic, htr, setKeyOf,
        setTileSheets, lookup_setField_self]
    · simp only [getFieldV_vmap, lookup_setField_self, Option.some_bind]
      rw [lookup_setField_ne (deleteField gs "data") "tileSheets" "data" _ (by decide)]
      exact lookup_deleteField_self gs "data" hnd
    · simp only [getFieldV_vmap, lookup_setField_self, Option.some_bind]
  · intro hne
    simp only [magicL] at hne
    simp only [presaveMapStep, extractMapE, getFieldV, hfs, hgs, if_neg hne]

theorem C7_tilemap_detect_iff_witness :
    (∃ c2, presaveMapStep (.vmap [("data", .vmap [("data", .vbytes bmin)])]) = .ok (c2, some bmin)
       ∧ (getFieldV c2 "data").bind (fun inner => getFieldV inner "data") = none
       ∧ (getFieldV c2 "data").bind (fun inner => getFieldV inner "tileSheets")
           = some (.varr (List.map Value.vstr [])))
  ∧ presaveMapStep (.vmap [("data", .vmap [("data", .vbytes [1, 2, 3])])])
      = .ok (.vmap [("data", .vmap [("data", .vbytes [1, 2, 3])])], none) :=
  ⟨(C7_tilemap_detect_iff [("data", .vmap [("data", .vbytes bmin)])]
      [("data", .vbytes bmin)] bmin rfl rfl (by simp)).1 bmin [] (by rfl) (by rfl),
   (C7_tilemap_detect_iff [("data", .vmap [("data", .vbytes [1, 2, 3])])]
      [("data", .vbytes [1, 2, 3])] [1, 2, 3] rfl rfl (by simp)).2 (by decide)⟩
